import Mathlib

/-!
Shallow embedding of `labchat/edgetech.py` (class `DewMaster`) and proofs
about its specification claims.

Conventions of the embedding:
* Python strings are modelled as `List Char` internally; top-level entry
  points take `String` and convert via `.data`.  The device byte stream is
  modelled at character level (all texts involved are ASCII; UTF-8
  encoding is modelled explicitly where the source encodes, in `utf8Encode`).
* Python `float` values are modelled as exact rationals `ℚ`; every decimal
  literal the claims exercise is exactly representable in IEEE 754 doubles,
  so no rounding behaviour is lost for the properties proved here.
* `datetime.fromtimestamp(time())` (the local wall clock) is modelled as an
  explicit parameter `now : DT` of the parsing function.
* `warnings.warn` calls are modelled as an ordered list of warning strings
  returned alongside the primary result.
* Exceptions are modelled with `Except`/explicit error results.  All three
  parse-time errors (`NoData`, a `strptime` failure, a `float` conversion
  failure) are `ValueError` in Python; the embedding distinguishes them by
  constructor because the claims distinguish them by condition.
-/

/-! ## Character classes (Python `re` ASCII classes and `str` whitespace) -/

/-- `[A-Z]` of the source regexes. -/
def isUpperAZ (c : Char) : Bool := 65 ≤ c.toNat && c.toNat ≤ 90

/-- `\d` of the source regexes. -/
def isDigitC (c : Char) : Bool := 48 ≤ c.toNat && c.toNat ≤ 57

/-- Python whitespace (`\s` on ASCII text, and the set stripped by `str.strip()`). -/
def isPySpace (c : Char) : Bool :=
  c = ' ' || c = '\t' || c = '\n' || c = '\r' || c = '\x0b' || c = '\x0c'

/-- The character class `[-\d\.]` of the measurement-value regex. -/
def isValChar (c : Char) : Bool := c = '-' || c = '.' || isDigitC c

def digitVal (c : Char) : Nat := c.toNat - 48

/-- Numeric value of a digit run (Python `int` on a digit string). -/
def digitsVal (ds : List Char) : Nat := ds.foldl (fun a c => 10 * a + digitVal c) 0

/-! ## Python string primitives used by the source -/

/-- `'\r\n' in s` / `re.search('\r\n', data_str)` (line 208). -/
def hasCRLF : List Char → Bool
  | '\r' :: '\n' :: _ => true
  | _ :: rest => hasCRLF rest
  | [] => false

/-- `data_str.split('\r\n')` (lines 210, 302, 335): split on every
occurrence of the two-character terminator, keeping empty segments. -/
def splitCRLF : List Char → List (List Char)
  | '\r' :: '\n' :: rest => [] :: splitCRLF rest
  | c :: rest =>
    match splitCRLF rest with
    | seg :: segs => (c :: seg) :: segs
    | [] => [[c]]
  | [] => [[]]

/-- Python `str.strip()` (line 109): drop leading and trailing whitespace. -/
def pyStrip (s : List Char) : List Char :=
  (((s.dropWhile isPySpace).reverse).dropWhile isPySpace).reverse

/-! ## The measurement-token regex `([A-Z]+)\s+=\s+([-\d\.]+)`

Python `re` uses leftmost search with greedy backtracking; for this pattern
backtracking can never succeed where the greedy runs fail (shrinking a
greedy `[A-Z]+`/`\s+`/`[-\d\.]+` run leaves the next position inside the
same class, which can never match the following construct), so each
position either matches with all-maximal runs or not at all. -/

/-- Try to match `([A-Z]+)\s+=\s+([-\d\.]+)` anchored at the head of `s`;
on success return (group 1, group 2, text after the match). -/
def matchTokenAt (s : List Char) : Option (List Char × List Char × List Char) :=
  let name := s.takeWhile isUpperAZ
  let s1 := s.dropWhile isUpperAZ
  let w1 := s1.takeWhile isPySpace
  let s2 := s1.dropWhile isPySpace
  if name.isEmpty || w1.isEmpty then none
  else
    match s2 with
    | '=' :: s3 =>
      let w2 := s3.takeWhile isPySpace
      let s4 := s3.dropWhile isPySpace
      let v := s4.takeWhile isValChar
      if w2.isEmpty || v.isEmpty then none
      else some (name, v, s4.dropWhile isValChar)
    | _ => none

/-- `re.search(token_pattern, s) is not None` (line 211). -/
def hasToken : List Char → Bool
  | [] => false
  | c :: cs => (matchTokenAt (c :: cs)).isSome || hasToken cs

/-- `re.findall(r"([A-Z]+)\s+=\s+([-\d\.]+)", s)` (line 224): all
non-overlapping matches, scanning left to right and resuming after each
match.  `fuel` bounds the recursion; each match consumes at least one
character, so `s.length` fuel is always enough. -/
def findTokensF : Nat → List Char → List (List Char × List Char)
  | 0, _ => []
  | _, [] => []
  | fuel + 1, c :: cs =>
    match matchTokenAt (c :: cs) with
    | some (n, v, rest) => (n, v) :: findTokensF fuel rest
    | none => findTokensF fuel cs

def findTokens (s : List Char) : List (List Char × List Char) :=
  findTokensF s.length s

/-! ## The timestamp regex `(\d\d/?){3}\s+(\d\d:?){3}` (line 217)

As above, greedy matching with no profitable backtracking: an optional
separator that is present is always consumed (giving it back leaves the
separator character where a digit or whitespace is required). -/

/-- Match `\d\d` followed by an optional `sep`; return (consumed, rest). -/
def ddSep (sep : Char) : List Char → Option (List Char × List Char)
  | c1 :: c2 :: rest =>
    if isDigitC c1 && isDigitC c2 then
      match rest with
      | c3 :: rest2 =>
        if c3 = sep then some ([c1, c2, c3], rest2) else some ([c1, c2], c3 :: rest2)
      | [] => some ([c1, c2], [])
    else none
  | _ => none

/-- Match the whole timestamp pattern anchored at the head of `s`;
return the matched text (`match.group(0)`). -/
def matchTsAt (s : List Char) : Option (List Char) := do
  let (d1, s1) ← ddSep '/' s
  let (d2, s2) ← ddSep '/' s1
  let (d3, s3) ← ddSep '/' s2
  let w := s3.takeWhile isPySpace
  if w.isEmpty then none
  else do
    let s4 := s3.dropWhile isPySpace
    let (t1, s5) ← ddSep ':' s4
    let (t2, s6) ← ddSep ':' s5
    let (t3, _) ← ddSep ':' s6
    pure (d1 ++ d2 ++ d3 ++ w ++ t1 ++ t2 ++ t3)

/-- `re.search(r"(\d\d/?){3}\s+(\d\d:?){3}", s)`: leftmost match's group 0. -/
def tsSearch : List Char → Option (List Char)
  | [] => none
  | c :: cs =>
    match matchTsAt (c :: cs) with
    | some g => some g
    | none => tsSearch cs

/-! ## `datetime.strptime(text, "%m/%d/%y %H:%M:%S")` (line 222)

CPython translates the format to an anchored regex
`(1[0-2]|0[1-9]|[1-9])/(3[01]|[12]\d|0[1-9]|[1-9])/(\d\d)\s+`
`(2[0-3]|[0-1]\d|\d):([0-5]\d|\d):(6[01]|[0-5]\d|\d)` and raises
`ValueError` if it does not match or if input remains after the match.
Every two-digit alternative is followed by a separator (or the
end-of-input check), and a digit can never equal the separator, so the
ordered alternation resolves deterministically: take two digits when the
two-digit alternatives allow it and the separator follows, else one digit
followed by the separator.  `datetime`'s constructor additionally
validates the calendar day and rejects leap seconds. -/

/-- One field followed by a literal separator: two digits accepted by
`twoOk`, or a single digit accepted by `oneOk`. -/
def fieldThen (twoOk : Nat → Bool) (oneOk : Nat → Bool) (sep : Char) :
    List Char → Option (Nat × List Char)
  | c1 :: c2 :: c3 :: rest =>
    if isDigitC c1 && isDigitC c2 && twoOk (10 * digitVal c1 + digitVal c2) && c3 = sep then
      some (10 * digitVal c1 + digitVal c2, rest)
    else if isDigitC c1 && oneOk (digitVal c1) && c2 = sep then
      some (digitVal c1, c3 :: rest)
    else none
  | [c1, c2] =>
    if isDigitC c1 && oneOk (digitVal c1) && c2 = sep then some (digitVal c1, []) else none
  | _ => none

/-- `%y`: exactly two digits. -/
def year2 : List Char → Option (Nat × List Char)
  | c1 :: c2 :: rest =>
    if isDigitC c1 && isDigitC c2 then some (10 * digitVal c1 + digitVal c2, rest) else none
  | _ => none

/-- `%S` at the end of the format: `(6[01]|[0-5]\d|\d)` and then the
"unconverted data remains" check: whatever follows the chosen alternative
must be empty. -/
def secondsEnd : List Char → Option Nat
  | [c1, c2] =>
    if isDigitC c1 && isDigitC c2 && 10 * digitVal c1 + digitVal c2 ≤ 61 then
      some (10 * digitVal c1 + digitVal c2)
    else none
  | [c1] => if isDigitC c1 then some (digitVal c1) else none
  | _ => none

def isLeap (y : Nat) : Bool := (y % 4 = 0 && y % 100 ≠ 0) || y % 400 = 0

def daysInMonth (y m : Nat) : Nat :=
  if m = 2 then (if isLeap y then 29 else 28)
  else if m = 4 || m = 6 || m = 9 || m = 11 then 30 else 31

/-- A parsed `datetime.datetime` value (date and time of day). -/
structure DT where
  year : Nat
  month : Nat
  day : Nat
  hour : Nat
  minute : Nat
  second : Nat
deriving DecidableEq

def strptimeMDY (s : List Char) : Option DT :=
  match fieldThen (fun v => 1 ≤ v && v ≤ 12) (fun v => 1 ≤ v) '/' s with
  | none => none
  | some (m, s1) =>
    match fieldThen (fun v => 1 ≤ v && v ≤ 31) (fun v => 1 ≤ v) '/' s1 with
    | none => none
    | some (d, s2) =>
      match year2 s2 with
      | none => none
      | some (y2, s3) =>
        -- `%y` pivot used by CPython: 00-68 ↦ 2000-2068, 69-99 ↦ 1969-1999
        let y := if y2 ≤ 68 then 2000 + y2 else 1900 + y2
        let w := s3.takeWhile isPySpace
        let s4 := s3.dropWhile isPySpace
        if w.isEmpty then none
        else
          match fieldThen (fun v => v ≤ 23) (fun _ => true) ':' s4 with
          | none => none
          | some (h, s5) =>
            match fieldThen (fun v => v ≤ 59) (fun _ => true) ':' s5 with
            | none => none
            | some (mi, s6) =>
              match secondsEnd s6 with
              | none => none
              | some sec =>
                -- datetime() constructor validation
                if 1 ≤ d && d ≤ daysInMonth y m && sec ≤ 59 then
                  some ⟨y, m, d, h, mi, sec⟩
                else none

/-! ## Python `float()` on strings drawn from the class `[-\d\.]+` (line 232)

Such a string contains only `-`, `.` and digits; `float` accepts it iff it
is an optional leading `-` followed by digits with at most one `.` and at
least one digit (no interior `-`, no second `.`). -/

def parseUnsignedFloat (s : List Char) : Option ℚ :=
  let intPart := s.takeWhile isDigitC
  let rest := s.dropWhile isDigitC
  match rest with
  | [] => if intPart.isEmpty then none else some (mkRat (digitsVal intPart) 1)
  | '.' :: frac =>
    if frac.all isDigitC && (!intPart.isEmpty || !frac.isEmpty) then
      some (mkRat (digitsVal intPart * 10 ^ frac.length + digitsVal frac) (10 ^ frac.length))
    else none
  | _ => none

def pyFloat : List Char → Option ℚ
  | '-' :: rest => (parseUnsignedFloat rest).map (fun q => -q)
  | s => parseUnsignedFloat s

/-! ## The status regex `([A-Z]+)\s*$` (line 234)

Leftmost uppercase run after which every character is whitespace (`\s*`
may consume a trailing newline, and `$` then matches at the end). -/

def statusSearch : List Char → Option (List Char)
  | [] => none
  | c :: cs =>
    if isUpperAZ c then
      if (( (c :: cs).dropWhile isUpperAZ).all isPySpace) then
        some ((c :: cs).takeWhile isUpperAZ)
      else statusSearch cs
    else statusSearch cs

/-! ## `DewMaster._parse_data` (lines 198-243) -/

/-- One parsed data line: `(time stamp, measurement names, data values, status)`. -/
structure Reading where
  dt : DT
  measurements : List String
  data : List ℚ
  status : String
deriving DecidableEq

/-- The exceptions `_parse_data` can raise.  All three are `ValueError` in
Python; `noData` is the one whose message is
"... does not appear to contain any data" (raised at lines 215 and 226),
`strptimeErr` is a `ValueError` escaping `datetime.strptime` (line 222)
and `floatErr` one escaping `float` (line 232). -/
inductive PyErr where
  | noData (s : String)
  | strptimeErr (s : String)
  | floatErr (s : String)
deriving DecidableEq

/-- The `for data_n in data_str.split('\r\n')` loop of lines 210-213 with
its `else: raise` clause (line 214-215).  Faithful to the source slip at
line 211: the guard tests the whole original string `data_str` (`orig`
here), not the loop variable `data_n`. -/
def selectLoop (orig : List Char) : List (List Char) → Option (List Char)
  | [] => none
  | seg :: rest => if hasToken orig then some seg else selectLoop orig rest

/-- Lines 207-215 ("Check for multiple lines"): returns the segment the
rest of the function works on, plus warnings emitted so far. -/
def selectSegment (s0 : List Char) : Except PyErr (List Char) × List String :=
  if hasCRLF s0 then
    let w := ["data_str has multiple lines, using the first recognized data line"]
    match selectLoop s0 (splitCRLF s0) with
    | some seg => (.ok seg, w)
    | none => (.error (.noData (String.mk s0)), w)
  else (.ok s0, [])

/-- Lines 216-222 ("Create datetime object"): search the timestamp
pattern; if absent, warn and use the local time `now`; if present, parse
it with `strptime`, whose failure propagates as a `ValueError`. -/
def timestampOf (ds : List Char) (now : DT) : Except PyErr (DT × List String) :=
  match tsSearch ds with
  | none => .ok (now, ["Unable to identify timestamp, using local time"])
  | some g0 =>
    match strptimeMDY g0 with
    | some dt => .ok (dt, [])
    | none => .error (.strptimeErr (String.mk g0))

/-- The `for m in match` loop of lines 230-232: convert each captured
value with `float`, whose failure propagates as a `ValueError`. -/
def floatsOf : List (List Char × List Char) → Except PyErr (List ℚ)
  | [] => .ok []
  | (_, v) :: rest =>
    match pyFloat v with
    | none => .error (.floatErr (String.mk v))
    | some q =>
      match floatsOf rest with
      | .ok qs => .ok (q :: qs)
      | .error e => .error e

/-- Lines 223-232 ("Create list of measurements"). -/
def measurementsOf (ds : List Char) : Except PyErr (List String × List ℚ) :=
  let toks := findTokens ds
  if toks.isEmpty then .error (.noData (String.mk ds))
  else
    match floatsOf toks with
    | .error e => .error e
    | .ok qs => .ok (toks.map (fun p => String.mk p.1), qs)

/-- Lines 233-241 ("Check status"). -/
def statusOf (ds : List Char) : String × List String :=
  match statusSearch ds with
  | none => ("UNKNOWN", ["Unable to identify status of measurement"])
  | some run =>
    let st := String.mk run
    if st = "SERVOLOCK" then (st, [])
    else (st, ["Status is " ++ st ++ ", data may be inaccurate"])

/-- `DewMaster._parse_data(data_str)` (lines 198-243), with the local
wall clock passed in as `now`.  Returns the parse result together with
the ordered list of warnings emitted before returning or raising. -/
def parse_data (s0 : List Char) (now : DT) : Except PyErr Reading × List String :=
  match selectSegment s0 with
  | (.error e, w1) => (.error e, w1)
  | (.ok ds, w1) =>
    match timestampOf ds now with
    | .error e => (.error e, w1)
    | .ok (dt, w2) =>
      match measurementsOf ds with
      | .error e => (.error e, w1 ++ w2)
      | .ok (ns, qs) =>
        let sw := statusOf ds
        (.ok ⟨dt, ns, qs, sw.1⟩, w1 ++ w2 ++ sw.2)

/-- `_parse_data` on a `String` argument. -/
def parseDataStr (s : String) (now : DT) : Except PyErr Reading × List String :=
  parse_data s.data now

deriving instance DecidableEq for Except


/-! ## `DewMaster.log_data` (lines 271-361): polling-loop state

Only the loop/counter state of `log_data` is embedded: the filesystem
checks and the npy/csv sinks (lines 291-295, 312-325, 342-355) persist
data but do not influence the loop control flow, and the cadence `sleep`
is abstracted away.  A polling tick is modelled by the frame text
returned by `self.read()` together with the wall-clock time at which the
tick's `_parse_data` calls run. -/

/-- One polling tick: the (already stripped) frame `read()` returned and
the local wall time during this tick. -/
abbrev Tick := String × DT

/-- Lines 302-308 / 335-341: split the frame on the line terminator,
parse every segment, keep the successes (every parse failure is a
`ValueError` in Python and is swallowed by the `except ValueError: pass`). -/
def tickReadings (tk : Tick) : List Reading :=
  (splitCRLF tk.1.data).filterMap fun d =>
    match (parse_data d tk.2).1 with
    | .ok r => some r
    | .error _ => none

/-- The mutable state of the collection loop: accumulated `data` and the
consecutive-failure counter `tries`. -/
structure LogState where
  data : List Reading
  tries : Nat
deriving DecidableEq

/-- One iteration of the collecting loop body (lines 333-359, persistence
elided).  `Except.error` models the `IOError` raised at line 358. -/
def collectTick (st : LogState) (newReadings : List Reading) : Except String LogState :=
  if !newReadings.isEmpty then
    .ok ⟨st.data ++ newReadings, 0⟩
  else
    if st.tries > 3 then .error "No data received for 4 tries in a row"
    else .ok ⟨st.data, st.tries + 1⟩

/-- The collecting loop (lines 332-361) run over a finite script of
ticks (`total = None`; reaching the end of the script simply means the
loop would keep polling). -/
def collectRun (st : LogState) : List Tick → Except String LogState
  | [] => .ok st
  | tk :: rest =>
    match collectTick st (tickReadings tk) with
    | .ok st1 => collectRun st1 rest
    | .error e => .error e

/-- Outcome of the priming loop of lines 299-311. -/
inductive PrimeResult where
  | primed (data : List Reading) (tries : Nat)
  | ioError
  | stillPolling
deriving DecidableEq

/-- The priming loop (lines 299-311): `data, tries = [], 0`, then
`while not data:` read a frame, append every successfully parsed reading,
raise `IOError('unable to get data from instrument')` when `tries > 2`
(line 309-310, checked before the increment and regardless of whether
this very tick produced data), else increment `tries`.  `stillPolling`
means the script ended while the loop would keep polling. -/
def primeLoop : List Tick → List Reading → Nat → PrimeResult
  | [], data, tries => if data.isEmpty then .stillPolling else .primed data tries
  | tk :: rest, data, tries =>
    if data.isEmpty then
      let data1 := data ++ tickReadings tk
      if tries > 2 then .ioError
      else primeLoop rest data1 (tries + 1)
    else .primed data tries

/-! ## Transport: `write`, `flush`, `set_average`, `set_output_interval`

The serial device is modelled as a script of responses (one per framed
`read()` cycle) plus a log of I/O events, so that "no device I/O is
performed" is the statement that the device state is returned unchanged. -/

/-- UTF-8 encoding of one character (`char.encode(encoding='utf-8')`,
line 81). -/
def utf8Encode (c : Char) : List Nat :=
  let n := c.toNat
  if n < 0x80 then [n]
  else if n < 0x800 then
    [0xC0 ||| (n >>> 6), 0x80 ||| (n &&& 0x3F)]
  else if n < 0x10000 then
    [0xE0 ||| (n >>> 12), 0x80 ||| ((n >>> 6) &&& 0x3F), 0x80 ||| (n &&& 0x3F)]
  else
    [0xF0 ||| (n >>> 18), 0x80 ||| ((n >>> 12) &&& 0x3F),
     0x80 ||| ((n >>> 6) &&& 0x3F), 0x80 ||| (n &&& 0x3F)]

/-- Observable I/O events on the serial stream.  A `readCycle` stands for
one whole framed `DewMaster.read()` call (its byte-level internals are
modelled separately by `readLoop` below). -/
inductive Ev where
  | flushEv
  | writeB (bytes : List Nat)
  | readCycle
deriving DecidableEq

/-- Device: the scripted responses the next framed reads will return, and
the event log. -/
structure Dev where
  script : List String
  log : List Ev
deriving DecidableEq

/-- A framed `self.read()` call at the command-helper level: consumes the
next scripted response (or returns `''` like a timed-out read). -/
def readM (st : Dev) : String × Dev :=
  match st.script with
  | [] => ("", { st with log := st.log ++ [.readCycle] })
  | r :: rest => (r, { script := rest, log := st.log ++ [.readCycle] })

/-- `DewMaster.flush()` (lines 67-71): drain whatever is buffered. -/
def flushM (st : Dev) : Dev :=
  { st with log := st.log ++ [.flushEv] }

/-- The per-character loop of `DewMaster.write` (lines 80-82): write the
encoded character, then immediately perform one read cycle discarding its
result. -/
def writeChars : List Char → Dev → Dev
  | [], st => st
  | c :: cs, st =>
    writeChars cs (readM { st with log := st.log ++ [.writeB (utf8Encode c)] }).2

/-- `DewMaster.write(command)` (lines 73-84): the character loop followed
by the single final write of the two-byte terminator (line 84). -/
def writeM (command : String) (st : Dev) : Dev :=
  let st1 := writeChars command.data st
  { st1 with log := st1.log ++ [.writeB [13, 10]] }

/-- `str(n)` for the integer arguments of the command helpers. -/
def intDec (n : Int) : String := toString n

/-- `int(match.group(1))` on a digit run. -/
def natOfDigits (ds : List Char) : Nat := digitsVal ds

/-- Strip a literal from the front of `s`. -/
def dropLitFront : List Char → List Char → Option (List Char)
  | [], s => some s
  | _, [] => none
  | l :: ls, c :: cs => if c = l then dropLitFront ls cs else none

/-- `re.search(lit + r"(\d+)", s)`: first position where the literal
matches and at least one digit follows; group 1 is the maximal digit run. -/
def litDigitSearch (lit : List Char) : List Char → Option (List Char)
  | [] => none
  | c :: cs =>
    match dropLitFront lit (c :: cs) with
    | some rest =>
      let ds := rest.takeWhile isDigitC
      if ds.isEmpty then litDigitSearch lit cs else some ds
    | none => litDigitSearch lit cs

/-- `DewMaster.set_average(avg_num)` (lines 138-164).  The argument is
modelled as an integer, so the `int()` coercion branch of lines 144-149
is skipped.  The result pairs the device state at return/raise time with
either the `ValueError` message (line 151) or the warnings emitted. -/
def set_average (avg : Int) (st : Dev) : Dev × Except String (List String) :=
  if avg < 1 || avg > 16 then
    (st, .error "avg_num should be between 1 and 16")
  else
    let st1 := flushM st
    let st2 := writeM "AV" st1
    let st3 := (readM st2).2
    let st4 := writeM (intDec avg) st3
    let p5 := readM st4
    let st6 := (readM p5.2).2
    let w :=
      match litDigitSearch "Number of data points to average = ".data p5.1.data with
      | none => ["Average value may not have been set properly"]
      | some ds =>
        if (natOfDigits ds : Int) = avg then []
        else ["Average was set to " ++ String.mk ds ++ " instead of " ++ intDec avg]
    (st6, .ok w)

/-- `DewMaster.set_output_interval(interval)` (lines 166-193).  The
argument is modelled as an integer, so the coercion branch of lines
173-178 is skipped.  `ValueError` message from line 180. -/
def set_output_interval (interval : Int) (st : Dev) : Dev × Except String (List String) :=
  if interval < 1 then
    (st, .error "interval should be greater than zero")
  else
    let st1 := flushM st
    let st2 := writeM "O" st1
    let st3 := (readM st2).2
    let st4 := writeM (intDec interval) st3
    let p5 := readM st4
    let st6 := (readM p5.2).2
    let w :=
      match litDigitSearch "The new serial interval is ".data p5.1.data with
      | none => ["Interval may not have been set properly"]
      | some ds =>
        if (natOfDigits ds : Int) = interval then []
        else ["Interval was set to " ++ String.mk ds ++ " instead of " ++ intDec interval]
    (st6, .ok w)

/-! ## `DewMaster.read()` (lines 86-109): the framed read loop

The loop samples `in_waiting` every 50 ms until either a nonzero count is
seen twice in a row (consume and return those bytes) or the timeout
elapses (warn, return `b''`).  Time is abstracted into `fuel`, the number
of iterations the `while t_now < t_stop` guard admits; `buf k` is the
buffered content at the k-th sample, so `in_waiting` at sample `k` is
`(buf k).length`.  Byte decoding is modelled at character level. -/

/-- The polling loop of lines 96-108 starting at sample `k` with the
previous sample count `lastVal`; `none` models the timed-out exit through
the `else` clause (warn, `out = b''`). -/
def readLoop (buf : Nat → List Char) : Nat → Nat → Nat → Option (List Char)
  | 0, _, _ => none
  | fuel + 1, k, lastVal =>
    let nowVal := (buf k).length
    if 0 < nowVal && nowVal = lastVal then some (buf k)
    else readLoop buf fuel (k + 1) nowVal

/-- `DewMaster.read()`: run the loop from sample 0 with `last_val = 0`,
then `out.decode(encoding='utf-8').strip()` (line 109).  The second
component records whether the timeout warning was emitted. -/
def readResult (buf : Nat → List Char) (fuel : Nat) : String × Bool :=
  match readLoop buf fuel 0 0 with
  | some frame => (String.mk (pyStrip frame), false)
  | none => (String.mk (pyStrip []), true)

/-- The value `last_val` holds when the loop examines sample `k`: it is
initialised to 0 (line 96) and thereafter carries the previous sample's
`in_waiting` count (line 104). -/
def prevVal (buf : Nat → List Char) : Nat → Nat
  | 0 => 0
  | k + 1 => (buf k).length

/-- The stability condition of line 100 at sample `k`: the count is
positive and equals `last_val`; sample 0 can never be stable because
`last_val` starts at 0. -/
def stableAt (buf : Nat → List Char) (k : Nat) : Bool :=
  0 < (buf k).length && (buf k).length = prevVal buf k

/-! ## Remaining definitions used by the claim statements -/

/-- A tick on which `log_data`'s inner loop parsed no reading. -/
def emptyTick (tk : Tick) : Bool := (tickReadings tk).isEmpty

/-- Five consecutive empty ticks occur somewhere in the script. -/
def fiveConsecEmpty : List Tick → Bool
  | t1 :: t2 :: t3 :: t4 :: t5 :: rest =>
    (emptyTick t1 && emptyTick t2 && emptyTick t3 && emptyTick t4 && emptyTick t5) ||
      fiveConsecEmpty (t2 :: t3 :: t4 :: t5 :: rest)
  | _ => false

/-- Length of the leading run of empty ticks. -/
def leadEmpties : List Tick → Nat
  | [] => 0
  | t :: rest => if emptyTick t then leadEmpties rest + 1 else 0

/-- Did this call raise (`Except.error`)? -/
def isErr {ε α : Type} : Except ε α → Bool
  | .error _ => true
  | .ok _ => false

/-- Wall-clock constants for concrete instantiations. -/
def dt0 : DT := ⟨2020, 1, 1, 0, 0, 0⟩

def dt1 : DT := ⟨2021, 6, 2, 3, 4, 5⟩

/-- The event trace `write(command)` should produce, stated the way the
specification describes it: per character one single write of that
character's encoding immediately followed by exactly one read cycle, and
after the last character a single final write of the two-byte
carriage-return line-feed terminator with no read cycle in between or
after. -/
def writeTraceSpec (command : String) : List Ev :=
  (command.data.map fun c => [Ev.writeB (utf8Encode c), Ev.readCycle]).flatten ++
    [Ev.writeB [13, 10]]

/-- A parse outcome with the `Reading`'s timestamp erased (used to state
in what way two parses of the same text at different wall times agree). -/
def dropDt (p : Except PyErr Reading × List String) :
    Except PyErr (List String × List ℚ × String) × List String :=
  (p.1.map fun r => (r.measurements, r.data, r.status), p.2)

/-- Does `_parse_data` on this text reach the local-wall-clock fallback
(timestamp pattern absent from the selected segment)? -/
def tsFallback (s : String) : Bool :=
  match (selectSegment s.data).1 with
  | .error _ => false
  | .ok ds => (tsSearch ds).isNone

/-! # Theorems -/

/-! ## Helper lemmas -/

theorem readM_log (st : Dev) : ((readM st).2).log = st.log ++ [Ev.readCycle] := by
  cases h : st.script <;> simp [readM, h]

theorem writeChars_log (cs : List Char) (st : Dev) :
    (writeChars cs st).log =
      st.log ++ (cs.map fun c => [Ev.writeB (utf8Encode c), Ev.readCycle]).flatten := by
  induction cs generalizing st with
  | nil => simp [writeChars]
  | cons c cs ih =>
    simp only [writeChars, List.map_cons, List.flatten_cons]
    rw [ih, readM_log]
    simp

theorem floatsOf_length (l : List (List Char × List Char)) (qs : List ℚ)
    (h : floatsOf l = .ok qs) : qs.length = l.length := by
  induction l generalizing qs with
  | nil =>
    simp only [floatsOf] at h
    cases h
    rfl
  | cons p rest ih =>
    simp only [floatsOf] at h
    cases hf : pyFloat p.2 with
    | none => rw [hf] at h; cases h
    | some q =>
      rw [hf] at h
      cases hr : floatsOf rest with
      | error e => rw [hr] at h; cases h
      | ok qs1 =>
        rw [hr] at h
        cases h
        simp [ih qs1 hr]

theorem measurementsOf_ok_lengths (ds : List Char) (ns : List String) (qs : List ℚ)
    (h : measurementsOf ds = .ok (ns, qs)) : ns.length = qs.length := by
  simp only [measurementsOf] at h
  cases he : (findTokens ds).isEmpty with
  | true => rw [he] at h; cases h
  | false =>
    rw [he] at h
    simp only [Bool.false_eq_true, if_false] at h
    cases hf : floatsOf (findTokens ds) with
    | error e => rw [hf] at h; cases h
    | ok qs1 =>
      rw [hf] at h
      cases h
      simp [floatsOf_length _ _ hf]

/-! ## C6: concrete parse of a nominal data line -/

/-- C6: on the input text `08/15/22 14:30:05  DEWPT = -40.25  SERVOLOCK`
(at any wall time), `_parse_data` returns the timestamp 2022-08-15
14:30:05, measurement names `["DEWPT"]`, measurement values `[-40.25]`
and status `SERVOLOCK`, and emits no warnings. -/
theorem c6_concrete_parse (now : DT) :
    parseDataStr "08/15/22 14:30:05  DEWPT = -40.25  SERVOLOCK" now =
      (.ok ⟨⟨2022, 8, 15, 14, 30, 5⟩, ["DEWPT"], [-40.25], "SERVOLOCK"⟩, []) := by
  have h : (-40.25 : ℚ) = mkRat (-161) 4 := by norm_num [Rat.mkRat_eq_div]
  rw [h]
  rfl

/-! ## C1: multi-segment selection (code bug at line 211) -/

/-- C1 (code bug): on raw text with two line-terminator-separated
segments where only the second contains a `NAME = value` token, the code
selects the FIRST segment (line 211 tests `data_str`, the whole text,
instead of the loop variable `data_n`) and then raises
`ValueError('JUNK does not appear to contain any data')` instead of
returning a Reading built from the second segment. -/
theorem c1_first_segment_selected_bug (now : DT) :
    parseDataStr "JUNK\r\n08/15/22 14:30:05  DEWPT = -40.25  SERVOLOCK" now =
      (.error (.noData "JUNK"),
        ["data_str has multiple lines, using the first recognized data line",
         "Unable to identify timestamp, using local time"]) := by
  rfl

/-! ## C7: name/value sequences of a returned Reading have equal length -/

/-- C7: every `Reading` successfully returned by `_parse_data` has as
many measurement names as measurement values (the two lists are built in
step from the same regex match list). -/
theorem c7_lengths_eq (s : String) (now : DT) (r : Reading) (ws : List String)
    (h : parseDataStr s now = (.ok r, ws)) :
    r.measurements.length = r.data.length := by
  simp only [parseDataStr, parse_data] at h
  split at h
  next e w1 heq => simp at h
  next ds w1 heq =>
    split at h
    next e hts => simp at h
    next dt w2 hts =>
      split at h
      next e hm => simp at h
      next ns qs hm =>
        simp only [Prod.mk.injEq, Except.ok.injEq] at h
        rcases h with ⟨hr, -⟩
        rw [← hr]
        exact measurementsOf_ok_lengths ds ns qs hm

/-- Witness for C7 at the concrete input of C6. -/
theorem c7_witness :
    (Reading.mk ⟨2022, 8, 15, 14, 30, 5⟩ ["DEWPT"] [mkRat (-161) 4]
        "SERVOLOCK").measurements.length =
      (Reading.mk ⟨2022, 8, 15, 14, 30, 5⟩ ["DEWPT"] [mkRat (-161) 4]
        "SERVOLOCK").data.length :=
  c7_lengths_eq "08/15/22 14:30:05  DEWPT = -40.25  SERVOLOCK" dt0
    (Reading.mk ⟨2022, 8, 15, 14, 30, 5⟩ ["DEWPT"] [mkRat (-161) 4] "SERVOLOCK") []
    (by rfl)

/-! ## C8: argument validation precedes any device I/O -/

/-- C8: `set_average` with a count outside [1,16] and
`set_output_interval` with an interval below 1 raise `ValueError`
synchronously, before any transport interaction: the device state
(response script and I/O event log) is returned exactly as it was. -/
theorem c8_validation_before_io :
    (∀ (avg : Int) (st : Dev), avg < 1 ∨ 16 < avg →
      set_average avg st = (st, .error "avg_num should be between 1 and 16")) ∧
    (∀ (interval : Int) (st : Dev), interval < 1 →
      set_output_interval interval st =
        (st, .error "interval should be greater than zero")) := by
  constructor
  · intro avg st h
    rcases h with h | h <;> simp [set_average, h]
  · intro interval st h
    simp [set_output_interval, h]

/-- Witness for C8 at `avg_num = 17` and `interval = 0`. -/
theorem c8_witness :
    set_average 17 ⟨[], []⟩ = (⟨[], []⟩, .error "avg_num should be between 1 and 16") ∧
    set_output_interval 0 ⟨[], []⟩ =
      (⟨[], []⟩, .error "interval should be greater than zero") :=
  ⟨c8_validation_before_io.1 17 ⟨[], []⟩ (Or.inr (by norm_num)),
   c8_validation_before_io.2 0 ⟨[], []⟩ (by norm_num)⟩

/-! ## C9: per-character echo handshake in `write` -/

/-- C9: for every command string, `write` emits exactly the trace the
specification describes: each character is written on its own (as its
UTF-8 encoding) and is immediately followed by exactly one read-and-
discard cycle, and after the last character the two-byte
carriage-return line-feed terminator goes out as a single final write
with no read cycle between or after it. -/
theorem c9_write_trace (command : String) (st : Dev) :
    (writeM command st).log = st.log ++ writeTraceSpec command := by
  simp only [writeM, writeTraceSpec]
  rw [writeChars_log]
  simp

/-! ## C3: priming-phase failure budget -/

/-- C3 counterexample: after exactly three consecutive polling cycles
with zero parsed readings the priming loop has NOT stopped — it is still
polling (three empty frames leave it at `tries = 3`, below the raise). -/
theorem c3_counterexample :
    primeLoop [("", dt0), ("", dt0), ("", dt0)] [] 0 = .stillPolling := by
  decide

/-- C3 amended: the priming loop raises `IOError` during its FOURTH
polling cycle when the first three cycles were empty — the `tries > 2`
check at line 309 runs before the increment and regardless of what the
fourth cycle produced — and after only three empty cycles it is still
polling. -/
theorem c3_amended_thm :
    (∀ (t1 t2 t3 t4 : Tick) (rest : List Tick),
      emptyTick t1 = true → emptyTick t2 = true → emptyTick t3 = true →
      primeLoop (t1 :: t2 :: t3 :: t4 :: rest) [] 0 = .ioError) ∧
    (∀ t1 t2 t3 : Tick,
      emptyTick t1 = true → emptyTick t2 = true → emptyTick t3 = true →
      primeLoop [t1, t2, t3] [] 0 = .stillPolling) := by
  constructor
  · intro t1 t2 t3 t4 rest h1 h2 h3
    have e1 : tickReadings t1 = [] := by simpa [emptyTick] using h1
    have e2 : tickReadings t2 = [] := by simpa [emptyTick] using h2
    have e3 : tickReadings t3 = [] := by simpa [emptyTick] using h3
    simp [primeLoop, e1, e2, e3]
  · intro t1 t2 t3 h1 h2 h3
    have e1 : tickReadings t1 = [] := by simpa [emptyTick] using h1
    have e2 : tickReadings t2 = [] := by simpa [emptyTick] using h2
    have e3 : tickReadings t3 = [] := by simpa [emptyTick] using h3
    simp [primeLoop, e1, e2, e3]

/-- Witness for C3: the amended theorem applied to a concrete script
(three empty frames, then a valid data frame — the raise still fires on
the fourth cycle). -/
theorem c3_witness :
    primeLoop
      [("", dt0), ("", dt0), ("", dt0),
       ("08/15/22 14:30:05  DEWPT = -40.25  SERVOLOCK", dt0)] [] 0 = .ioError :=
  c3_amended_thm.1 ("", dt0) ("", dt0) ("", dt0)
    ("08/15/22 14:30:05  DEWPT = -40.25  SERVOLOCK", dt0) [] (by decide) (by decide)
    (by decide)

/-! ## C2: collecting-phase failure budget -/

theorem tickReadings_of_empty {tk : Tick} (h : emptyTick tk = true) :
    tickReadings tk = [] := by
  simpa [emptyTick] using h

theorem collectTick_pos (st : LogState) (l : List Reading) (h : l ≠ []) :
    collectTick st l = .ok ⟨st.data ++ l, 0⟩ := by
  cases l with
  | nil => exact absurd rfl h
  | cons x xs => simp [collectTick]

theorem collectTick_empty_le (st : LogState) (h : ¬ st.tries > 3) :
    collectTick st [] = .ok ⟨st.data, st.tries + 1⟩ := by
  simp [collectTick, h]

theorem collectTick_empty_raise (st : LogState) (h : st.tries > 3) :
    collectTick st [] = .error "No data received for 4 tries in a row" := by
  simp [collectTick, h]

theorem collectRun_cons_of_ok {st st1 : LogState} {tk : Tick} (rest : List Tick)
    (h : collectTick st (tickReadings tk) = .ok st1) :
    collectRun st (tk :: rest) = collectRun st1 rest := by
  simp [collectRun, h]

theorem collectRun_cons_of_err {st : LogState} {tk : Tick} {e : String} (rest : List Tick)
    (h : collectTick st (tickReadings tk) = .error e) :
    collectRun st (tk :: rest) = .error e := by
  simp [collectRun, h]

theorem fiveConsecEmpty_tail (t : Tick) (rest : List Tick)
    (h : fiveConsecEmpty (t :: rest) = false) : fiveConsecEmpty rest = false := by
  rcases rest with _ | ⟨r1, _ | ⟨r2, _ | ⟨r3, _ | ⟨r4, rest2⟩⟩⟩⟩ <;>
    simp_all [fiveConsecEmpty]

theorem five_of_lead (ticks : List Tick) (h : 5 ≤ leadEmpties ticks) :
    fiveConsecEmpty ticks = true := by
  rcases ticks with _ | ⟨t1, _ | ⟨t2, _ | ⟨t3, _ | ⟨t4, _ | ⟨t5, rest⟩⟩⟩⟩⟩
  · simp [leadEmpties] at h
  · by_cases e1 : emptyTick t1 = true <;> simp [leadEmpties, e1] at h
  · by_cases e1 : emptyTick t1 = true <;> by_cases e2 : emptyTick t2 = true <;>
      simp [leadEmpties, e1, e2] at h
  · by_cases e1 : emptyTick t1 = true <;> by_cases e2 : emptyTick t2 = true <;>
      by_cases e3 : emptyTick t3 = true <;> simp [leadEmpties, e1, e2, e3] at h
  · by_cases e1 : emptyTick t1 = true <;> by_cases e2 : emptyTick t2 = true <;>
      by_cases e3 : emptyTick t3 = true <;> by_cases e4 : emptyTick t4 = true <;>
      simp [leadEmpties, e1, e2, e3, e4] at h
  · by_cases e1 : emptyTick t1 = true
    · by_cases e2 : emptyTick t2 = true
      · by_cases e3 : emptyTick t3 = true
        · by_cases e4 : emptyTick t4 = true
          · by_cases e5 : emptyTick t5 = true
            · simp [fiveConsecEmpty, e1, e2, e3, e4, e5]
            · simp [leadEmpties, e1, e2, e3, e4, e5] at h
          · simp [leadEmpties, e1, e2, e3, e4] at h
        · simp [leadEmpties, e1, e2, e3] at h
      · simp [leadEmpties, e1, e2] at h
    · simp [leadEmpties, e1] at h

theorem lead_le_four (ticks : List Tick) (h : fiveConsecEmpty ticks = false) :
    leadEmpties ticks ≤ 4 := by
  by_contra hlt
  rw [five_of_lead ticks (by omega)] at h
  cases h

theorem emptyTick_raise_step {tk : Tick} {d : List Reading} {c : Nat}
    (he : emptyTick tk = true) (hc : c > 3) (rest : List Tick) :
    collectRun ⟨d, c⟩ (tk :: rest) = .error "No data received for 4 tries in a row" := by
  have hct : collectTick ⟨d, c⟩ (tickReadings tk) = .error "No data received for 4 tries in a row" := by
    rw [tickReadings_of_empty he]; exact collectTick_empty_raise _ hc
  exact collectRun_cons_of_err rest hct

theorem emptyTick_count_step {tk : Tick} {d : List Reading} {c : Nat}
    (he : emptyTick tk = true) (hc : ¬ c > 3) (rest : List Tick) :
    collectRun ⟨d, c⟩ (tk :: rest) = collectRun ⟨d, c + 1⟩ rest := by
  have hct : collectTick ⟨d, c⟩ (tickReadings tk) = .ok ⟨d, c + 1⟩ := by
    rw [tickReadings_of_empty he]; exact collectTick_empty_le _ hc
  exact collectRun_cons_of_ok rest hct

theorem posTick_reset_step {tk : Tick} {d : List Reading} {c : Nat}
    (he : emptyTick tk = false) (rest : List Tick) :
    collectRun ⟨d, c⟩ (tk :: rest) = collectRun ⟨d ++ tickReadings tk, 0⟩ rest := by
  have hne : tickReadings tk ≠ [] := by
    intro hx
    rw [emptyTick, hx] at he
    simp at he
  exact collectRun_cons_of_ok rest (collectTick_pos _ _ hne)

theorem errFromFour (r1 r2 r3 r4 : Tick) (rest : List Tick) (c : Nat) (d : List Reading)
    (hc : 1 ≤ c) (h1 : emptyTick r1 = true) (h2 : emptyTick r2 = true)
    (h3 : emptyTick r3 = true) (h4 : emptyTick r4 = true) :
    isErr (collectRun ⟨d, c⟩ (r1 :: r2 :: r3 :: r4 :: rest)) = true := by
  by_cases k1 : c > 3
  · rw [emptyTick_raise_step h1 k1]; rfl
  · rw [emptyTick_count_step h1 k1]
    by_cases k2 : c + 1 > 3
    · rw [emptyTick_raise_step h2 k2]; rfl
    · rw [emptyTick_count_step h2 k2]
      by_cases k3 : c + 1 + 1 > 3
      · rw [emptyTick_raise_step h3 k3]; rfl
      · rw [emptyTick_count_step h3 k3]
        have k4 : c + 1 + 1 + 1 > 3 := by omega
        rw [emptyTick_raise_step h4 k4]; rfl

theorem err_of_five (ticks : List Tick) :
    ∀ (c : Nat) (d : List Reading), fiveConsecEmpty ticks = true →
      isErr (collectRun ⟨d, c⟩ ticks) = true := by
  induction ticks with
  | nil => intro c d h; simp [fiveConsecEmpty] at h
  | cons tk rest ih =>
    intro c d h
    rcases hre : rest with _ | ⟨r1, _ | ⟨r2, _ | ⟨r3, _ | ⟨r4, rest2⟩⟩⟩⟩ <;> subst hre
    · simp [fiveConsecEmpty] at h
    · simp [fiveConsecEmpty] at h
    · simp [fiveConsecEmpty] at h
    · simp [fiveConsecEmpty] at h
    · simp only [fiveConsecEmpty, Bool.or_eq_true, Bool.and_eq_true] at h
      rcases h with ⟨⟨⟨⟨e1, e2⟩, e3⟩, e4⟩, e5⟩ | ht
      · -- the five-empty window sits at the head
        by_cases k1 : c > 3
        · rw [emptyTick_raise_step e1 k1]; rfl
        · rw [emptyTick_count_step e1 k1]
          exact errFromFour r1 r2 r3 r4 rest2 (c + 1) d (by omega) e2 e3 e4 e5
      · -- the window sits in the tail
        by_cases het : emptyTick tk = true
        · by_cases k1 : c > 3
          · rw [emptyTick_raise_step het k1]; rfl
          · rw [emptyTick_count_step het k1]
            exact ih (c + 1) d ht
        · rw [posTick_reset_step (by simpa using het)]
          exact ih 0 _ ht

theorem ok_of_noFive (ticks : List Tick) :
    ∀ (c : Nat) (d : List Reading), fiveConsecEmpty ticks = false →
      c + leadEmpties ticks ≤ 4 → isErr (collectRun ⟨d, c⟩ ticks) = false := by
  induction ticks with
  | nil => intro c d _ _; rfl
  | cons tk rest ih =>
    intro c d h5 hl
    by_cases het : emptyTick tk = true
    · rw [leadEmpties, if_pos het] at hl
      have hc : ¬ c > 3 := by omega
      rw [emptyTick_count_step het hc]
      exact ih (c + 1) d (fiveConsecEmpty_tail _ _ h5) (by omega)
    · rw [posTick_reset_step (by simpa using het)]
      have h5t := fiveConsecEmpty_tail _ _ h5
      exact ih 0 _ h5t (by have := lead_le_four rest h5t; omega)

/-- C2 counterexample: starting from a freshly reset counter (`tries = 0`,
exactly the state the claim's own reset rule puts the session in after a
successful tick), even FOUR consecutive empty ticks leave the session in
`Collecting` (result `.ok`, counter 4) — the session does not stop after
3 consecutive empty ticks as claimed. -/
theorem c2_counterexample :
    collectRun ⟨[], 0⟩ [("", dt0), ("", dt0), ("", dt0), ("", dt0)] = .ok ⟨[], 4⟩ := by
  decide

/-- C2 amended: the consecutive-empty counter does reset to 0 on any tick
with at least one parsed `Reading` and increments on empty ticks, but the
`tries > 3` check at line 357 runs BEFORE the increment, so starting from
a reset counter the session raises `IOError('No data received for 4 tries
in a row')` exactly when five (not three) consecutive empty ticks occur;
it never stops for empty ticks that are not consecutive, and a session
whose counter is at most 2 survives 2 empty ticks, a successful tick and
2 more empty ticks. -/
theorem c2_amended_thm :
    (∀ (st : LogState) (new : List Reading), new ≠ [] →
      collectTick st new = .ok ⟨st.data ++ new, 0⟩) ∧
    (∀ st : LogState, st.tries ≤ 3 →
      collectTick st [] = .ok ⟨st.data, st.tries + 1⟩) ∧
    (∀ st : LogState, 3 < st.tries →
      collectTick st [] = .error "No data received for 4 tries in a row") ∧
    (∀ (ticks : List Tick) (d : List Reading),
      isErr (collectRun ⟨d, 0⟩ ticks) = fiveConsecEmpty ticks) ∧
    (∀ (d : List Reading) (c : Nat) (t1 t2 g t4 t5 : Tick), c ≤ 2 →
      emptyTick t1 = true → emptyTick t2 = true → emptyTick g = false →
      emptyTick t4 = true → emptyTick t5 = true →
      isErr (collectRun ⟨d, c⟩ [t1, t2, g, t4, t5]) = false) := by
  refine ⟨fun st new h => collectTick_pos st new h,
    fun st h => collectTick_empty_le st (by omega),
    fun st h => collectTick_empty_raise st h, ?_, ?_⟩
  · intro ticks d
    cases hfc : fiveConsecEmpty ticks with
    | true => exact err_of_five ticks 0 d hfc
    | false =>
      exact ok_of_noFive ticks 0 d hfc (by have := lead_le_four ticks hfc; omega)
  · intro d c t1 t2 g t4 t5 hc h1 h2 hg h4 h5
    rw [emptyTick_count_step h1 (by omega), emptyTick_count_step h2 (by omega),
      posTick_reset_step hg, emptyTick_count_step h4 (by omega),
      emptyTick_count_step h5 (by omega)]
    rfl

/-- Witness for C2: a concrete collecting session with counter 0 that
sees 2 empty ticks, one successful tick, then 2 more empty ticks, and is
still collecting. -/
theorem c2_witness :
    isErr (collectRun ⟨[], 0⟩
      [("", dt0), ("", dt0), ("08/15/22 14:30:05  DEWPT = -40.25  SERVOLOCK", dt0),
       ("", dt0), ("", dt0)]) = false :=
  c2_amended_thm.2.2.2.2 [] 0 ("", dt0) ("", dt0)
    ("08/15/22 14:30:05  DEWPT = -40.25  SERVOLOCK", dt0) ("", dt0) ("", dt0)
    (by omega) (by decide) (by decide) (by decide) (by decide) (by decide)

/-! ## C10: return value of the framed `read()` -/

theorem pyStrip_all_space (s : List Char) (h : s.all isPySpace = true) :
    pyStrip s = [] := by
  have h1 : s.dropWhile isPySpace = [] := by
    rw [List.dropWhile_eq_nil_iff]
    intro x hx
    exact (List.all_eq_true.mp h) x hx
  simp [pyStrip, h1]

theorem readLoop_none (buf : Nat → List Char) :
    ∀ (fuel k : Nat),
      (∀ j, k ≤ j → j < k + fuel → stableAt buf j = false) →
      readLoop buf fuel k (prevVal buf k) = none := by
  intro fuel
  induction fuel with
  | zero => intro k _; rfl
  | succ fuel ih =>
    intro k h
    have hk : stableAt buf k = false := h k le_rfl (by omega)
    simp only [readLoop]
    rw [if_neg (by simpa [stableAt] using hk)]
    exact ih (k + 1) fun j hj1 hj2 => h j (by omega) (by omega)

theorem readLoop_some (buf : Nat → List Char) :
    ∀ (m fuel k : Nat), m < fuel → stableAt buf (k + m) = true →
      (∀ j, k ≤ j → j < k + m → stableAt buf j = false) →
      readLoop buf fuel k (prevVal buf k) = some (buf (k + m)) := by
  intro m
  induction m with
  | zero =>
    intro fuel k hm hs _
    cases fuel with
    | zero => omega
    | succ fuel =>
      simp only [readLoop]
      rw [if_pos (by simpa [stableAt] using hs)]
      simp
  | succ m ih =>
    intro fuel k hm hs h
    cases fuel with
    | zero => omega
    | succ fuel =>
      have hk : stableAt buf k = false := h k le_rfl (by omega)
      have heq : k + 1 + m = k + (m + 1) := by omega
      simp only [readLoop]
      rw [if_neg (by simpa [stableAt] using hk)]
      have hrec := ih fuel (k + 1) (by omega) (by rw [heq]; exact hs)
        (fun j hj1 hj2 => h j (by omega) (by omega))
      rw [heq] at hrec
      exact hrec

/-- C10: `read()` returns the consumed frame decoded and stripped of
leading/trailing whitespace when some sample sees a stable nonzero byte
count, and returns the empty string when the timeout elapses with no
stable nonzero observation; a frame consisting only of whitespace
(e.g. a bare line terminator) also strips to the empty string, so the
returned value alone cannot distinguish it from a timed-out read (only
the warning flag differs... the Boolean in the pair records the timeout
warning). -/
theorem c10_read_return :
    (∀ (buf : Nat → List Char) (fuel : Nat),
      (∀ j, j < fuel → stableAt buf j = false) →
      readResult buf fuel = ("", true)) ∧
    (∀ (buf : Nat → List Char) (fuel k : Nat), k < fuel → stableAt buf k = true →
      (∀ j, j < k → stableAt buf j = false) →
      readResult buf fuel = (String.mk (pyStrip (buf k)), false)) ∧
    (∀ (buf : Nat → List Char) (fuel k : Nat), k < fuel → stableAt buf k = true →
      (∀ j, j < k → stableAt buf j = false) → (buf k).all isPySpace = true →
      readResult buf fuel = ("", false)) := by
  have key : ∀ (buf : Nat → List Char) (fuel k : Nat), k < fuel → stableAt buf k = true →
      (∀ j, j < k → stableAt buf j = false) →
      readResult buf fuel = (String.mk (pyStrip (buf k)), false) := by
    intro buf fuel k hk hs h
    have h0 := readLoop_some buf k fuel 0 hk (by simpa using hs)
      (fun j hj1 hj2 => h j (by omega))
    simp only [prevVal, Nat.zero_add] at h0
    simp [readResult, h0]
  refine ⟨?_, key, ?_⟩
  · intro buf fuel h
    have h0 := readLoop_none buf fuel 0 (fun j hj1 hj2 => h j (by omega))
    simp only [prevVal, Nat.zero_add] at h0
    simp [readResult, h0, pyStrip]
  · intro buf fuel k hk hs h hws
    rw [key buf fuel k hk hs h, pyStrip_all_space _ hws]

/-- Witness for C10: a device that has 0 bytes at sample 0, then a
stable 2-byte bare line terminator from sample 1 on, yields `""` without
the timeout warning; a device that never buffers anything yields `""`
with the warning — the two return values coincide. -/
theorem c10_witness :
    readResult (fun _ => ([] : List Char)) 3 = ("", true) ∧
    readResult (fun k => if k = 0 then [] else ['\r', '\n']) 4 = ("", false) :=
  ⟨c10_read_return.1 (fun _ => ([] : List Char)) 3 (by decide),
   c10_read_return.2.2 (fun k => if k = 0 then [] else ['\r', '\n']) 4 2 (by norm_num)
     (by decide) (by decide) (by decide)⟩

/-! ## C5: determinism of `_parse_data` up to the local-time fallback -/

theorem parse_data_sel_err {s0 : List Char} {e : PyErr} {w1 : List String} (now : DT)
    (h : selectSegment s0 = (.error e, w1)) : parse_data s0 now = (.error e, w1) := by
  simp [parse_data, h]

theorem parse_data_ts_err {s0 ds : List Char} {e : PyErr} {w1 : List String} {now : DT}
    (h1 : selectSegment s0 = (.ok ds, w1)) (h2 : timestampOf ds now = .error e) :
    parse_data s0 now = (.error e, w1) := by
  simp [parse_data, h1, h2]

theorem parse_data_meas_err {s0 ds : List Char} {e : PyErr} {w1 w2 : List String}
    {dt : DT} {now : DT} (h1 : selectSegment s0 = (.ok ds, w1))
    (h2 : timestampOf ds now = .ok (dt, w2)) (h3 : measurementsOf ds = .error e) :
    parse_data s0 now = (.error e, w1 ++ w2) := by
  simp [parse_data, h1, h2, h3]

theorem parse_data_full {s0 ds : List Char} {w1 w2 : List String} {dt : DT} {now : DT}
    {ns : List String} {qs : List ℚ} (h1 : selectSegment s0 = (.ok ds, w1))
    (h2 : timestampOf ds now = .ok (dt, w2)) (h3 : measurementsOf ds = .ok (ns, qs)) :
    parse_data s0 now =
      (.ok ⟨dt, ns, qs, (statusOf ds).1⟩, w1 ++ w2 ++ (statusOf ds).2) := by
  simp [parse_data, h1, h2, h3]

/-- C5 counterexample: `_parse_data` is not deterministic across calls —
on an input without a timestamp pattern the returned `Reading` carries
the wall-clock time of the call, so two calls at different times return
different Readings. -/
theorem c5_counterexample :
    parseDataStr "DEWPT = -40.25  SERVOLOCK" dt0 ≠
      parseDataStr "DEWPT = -40.25  SERVOLOCK" dt1 := by
  decide

/-- C5 amended: for identical input text, two calls of `_parse_data` at
wall times `t1` and `t2` agree on everything except possibly the
timestamp (same warnings, same failure, same names, values and status),
and agree completely whenever the selected segment contains a timestamp
pattern, i.e. whenever the local-time fallback is not taken. -/
theorem c5_amended_thm (s : String) (t1 t2 : DT) :
    dropDt (parseDataStr s t1) = dropDt (parseDataStr s t2) ∧
    (tsFallback s = false → parseDataStr s t1 = parseDataStr s t2) := by
  rcases hsel : selectSegment s.data with ⟨res, w1⟩
  cases res with
  | error e =>
    have p1 := parse_data_sel_err t1 hsel
    have p2 := parse_data_sel_err t2 hsel
    exact ⟨by simp [parseDataStr, dropDt, Except.map, p1, p2], fun _ => by simp [parseDataStr, p1, p2]⟩
  | ok ds =>
    cases hts : tsSearch ds with
    | none =>
      have q1 : timestampOf ds t1 =
          .ok (t1, ["Unable to identify timestamp, using local time"]) := by
        simp [timestampOf, hts]
      have q2 : timestampOf ds t2 =
          .ok (t2, ["Unable to identify timestamp, using local time"]) := by
        simp [timestampOf, hts]
      have hfb : tsFallback s = true := by simp [tsFallback, hsel, hts]
      cases hm : measurementsOf ds with
      | error e =>
        have p1 := parse_data_meas_err hsel q1 hm
        have p2 := parse_data_meas_err hsel q2 hm
        exact ⟨by simp [parseDataStr, dropDt, Except.map, p1, p2],
          fun hf => absurd hfb (by simp [hf])⟩
      | ok nsqs =>
        rcases nsqs with ⟨ns, qs⟩
        have p1 := parse_data_full hsel q1 hm
        have p2 := parse_data_full hsel q2 hm
        exact ⟨by simp [parseDataStr, dropDt, Except.map, p1, p2],
          fun hf => absurd hfb (by simp [hf])⟩
    | some g =>
      cases hsp : strptimeMDY g with
      | some dt =>
        have q1 : timestampOf ds t1 = .ok (dt, []) := by simp [timestampOf, hts, hsp]
        have q2 : timestampOf ds t2 = .ok (dt, []) := by simp [timestampOf, hts, hsp]
        have e12 : parse_data s.data t1 = parse_data s.data t2 := by
          cases hm : measurementsOf ds with
          | error e => rw [parse_data_meas_err hsel q1 hm, parse_data_meas_err hsel q2 hm]
          | ok nsqs =>
            rcases nsqs with ⟨ns, qs⟩
            rw [parse_data_full hsel q1 hm, parse_data_full hsel q2 hm]
        exact ⟨by simp [parseDataStr, dropDt, e12], fun _ => by simp [parseDataStr, e12]⟩
      | none =>
        have q1 : timestampOf ds t1 = .error (.strptimeErr (String.mk g)) := by
          simp [timestampOf, hts, hsp]
        have q2 : timestampOf ds t2 = .error (.strptimeErr (String.mk g)) := by
          simp [timestampOf, hts, hsp]
        have e12 : parse_data s.data t1 = parse_data s.data t2 := by
          rw [parse_data_ts_err hsel q1, parse_data_ts_err hsel q2]
        exact ⟨by simp [parseDataStr, dropDt, e12], fun _ => by simp [parseDataStr, e12]⟩

/-- Witness for C5: on the timestamped input of C6 the two calls agree
completely. -/
theorem c5_witness :
    parseDataStr "08/15/22 14:30:05  DEWPT = -40.25  SERVOLOCK" dt0 =
      parseDataStr "08/15/22 14:30:05  DEWPT = -40.25  SERVOLOCK" dt1 :=
  (c5_amended_thm "08/15/22 14:30:05  DEWPT = -40.25  SERVOLOCK" dt0 dt1).2 (by decide)

/-! ## C4: which parse anomalies are fatal -/

/-- C4 counterexample: NoData is NOT the only fatal error `_parse_data`
can raise.  On a line whose value token `1.2.3` matches the measurement
regex but is not a valid float, the `float()` call at line 232 raises a
fatal `ValueError` that is not the NoData condition, and no `Reading` is
returned (and no warning was emitted on the way). -/
theorem c4_counterexample :
    parseDataStr "08/15/22 14:30:05  DEWPT = 1.2.3  SERVOLOCK" dt0 =
      (.error (.floatErr "1.2.3"), []) := by
  decide

/-- C4 amended: besides NoData, `_parse_data` also raises fatal
`ValueError`s out of `float()` (a matched value token that is not a
valid float literal) and out of `strptime` (a timestamp that matches the
search pattern but not the format); the anomalies that DO degrade to
warnings with best-effort substitution are a wholly-absent timestamp
pattern (local wall time substituted) and an absent trailing status
token (status `UNKNOWN` substituted). -/
theorem c4_amended_thm :
    (∀ (s : String) (now : DT),
      hasCRLF s.data = false → tsSearch s.data = none →
      (findTokens s.data).isEmpty = false → isErr (floatsOf (findTokens s.data)) = false →
      ∃ r ws, parseDataStr s now = (.ok r, ws) ∧ r.dt = now ∧
        "Unable to identify timestamp, using local time" ∈ ws) ∧
    (∀ (s : String) (now : DT) (r : Reading) (ws : List String),
      hasCRLF s.data = false → statusSearch s.data = none →
      parseDataStr s now = (.ok r, ws) →
      r.status = "UNKNOWN" ∧ "Unable to identify status of measurement" ∈ ws) ∧
    parseDataStr "08/15/22 14:30:05  DEWPT = 1.2.3  SERVOLOCK" dt1 =
      (.error (.floatErr "1.2.3"), []) := by
  refine ⟨?_, ?_, by decide⟩
  · intro s now hcr hts hne hfl
    have hsel : selectSegment s.data = (.ok s.data, []) := by
      simp [selectSegment, hcr]
    have q : timestampOf s.data now =
        .ok (now, ["Unable to identify timestamp, using local time"]) := by
      simp [timestampOf, hts]
    cases hf : floatsOf (findTokens s.data) with
    | error e => rw [hf] at hfl; cases hfl
    | ok qs =>
      have hm : measurementsOf s.data =
          .ok ((findTokens s.data).map (fun p => String.mk p.1), qs) := by
        simp [measurementsOf, hne, hf]
      refine ⟨_, _, parse_data_full hsel q hm, rfl, ?_⟩
      simp
  · intro s now r ws hcr hss h
    have hsel : selectSegment s.data = (.ok s.data, []) := by
      simp [selectSegment, hcr]
    have hst : statusOf s.data = ("UNKNOWN", ["Unable to identify status of measurement"]) := by
      simp [statusOf, hss]
    cases hq : timestampOf s.data now with
    | error e =>
      rw [parseDataStr, parse_data_ts_err hsel hq] at h
      simp at h
    | ok p =>
      rcases p with ⟨dt, w2⟩
      cases hm : measurementsOf s.data with
      | error e =>
        rw [parseDataStr, parse_data_meas_err hsel hq hm] at h
        simp at h
      | ok nsqs =>
        rcases nsqs with ⟨ns, qs⟩
        rw [parseDataStr, parse_data_full hsel hq hm, hst] at h
        simp only [Prod.mk.injEq, Except.ok.injEq] at h
        rcases h with ⟨hr, hw⟩
        constructor
        · rw [← hr]
        · rw [← hw]
          simp

/-- Witness for C4: a line with a valid measurement but no timestamp
pattern parses to a `Reading` stamped with the call time plus the
fallback warning. -/
theorem c4_witness :
    ∃ r ws, parseDataStr "DEWPT = -40.25  SERVOLOCK" dt0 = (.ok r, ws) ∧
      r.dt = dt0 ∧ "Unable to identify timestamp, using local time" ∈ ws :=
  c4_amended_thm.1 "DEWPT = -40.25  SERVOLOCK" dt0 (by decide) (by decide) (by decide)
    (by decide)
